import Mathlib

/-!
Verification of the NovaCore relevance-ranking and connection-inference core.

Shallow embedding of `src/utils/vector.py`, `src/utils/memory_connections.py`
and the fallback heuristics of `src/utils/ai.py`.

Modelling conventions:
* Python floats are modelled as exact rationals.
* Python exceptions are modelled with `Except PyErr`; a function body that the
  source wraps in a try/except block is embedded as an `Except`-valued body
  plus a total wrapper realizing the handler.
* The OpenAI embedding provider is an explicit `Provider` argument: `embed`
  is the outcome of the provider call for a given text, and `fallback` is the
  random vector `np.random.uniform(-1, 1, ...)` that `generate_embedding`
  substitutes when the call fails or the API key is unset (one draw per text
  for the duration of one run).
* Timestamps are modelled at day granularity, so the Python expression
  `(updated_at - created_at).days` becomes integer subtraction.
* The stored `embedding` column is `Column(ARRAY(Float))` (src/models.py
  line 85) and every writer stores a float list, so `Memory.embedding` is
  an optional float list; `json.loads` over a truthy stored value (a
  Python list) raises `TypeError` unconditionally, which the model makes
  explicit.
* The un-awaited call `set(extract_key_topics(...))` in
  `analyze_potential_connection` hands a coroutine object to `set()` and
  raises `TypeError` on every invocation; the model keeps that raise and
  embeds the cue logic below it (dead code in the source) separately.
-/

/-- Python exception kinds that can surface inside the search pipeline. -/
inductive PyErr where
  | valueError
  | typeError
  | jsonError
deriving DecidableEq, Repr

/-- Python `needle` begins the character list `hay` (helper for `in`). -/
def listLeads : List Char → List Char → Bool
  | [], _ => true
  | _ :: _, [] => false
  | c :: cs, d :: ds => c = d && listLeads cs ds

/-- Python `needle` occurs somewhere in the character list `hay`. -/
def listOccurs (needle : List Char) : List Char → Bool
  | [] => listLeads needle []
  | c :: cs => listLeads needle (c :: cs) || listOccurs needle cs

/-- Python substring containment `needle in hay`. -/
def pyInStr (needle hay : String) : Bool :=
  listOccurs needle.toList hay.toList

/-- Python `str.lower()` (ASCII-faithful). -/
def pyLower (s : String) : String := String.mk (s.toList.map Char.toLower)

/-- Accumulator pass behind `pySplit`: gather maximal non-whitespace runs. -/
def pyWordsAux (cur : List Char) : List Char → List (List Char)
  | [] => if cur = [] then [] else [cur.reverse]
  | c :: cs =>
    if c.isWhitespace then
      if cur = [] then pyWordsAux [] cs
      else cur.reverse :: pyWordsAux [] cs
    else pyWordsAux (c :: cur) cs

/-- Python `str.split()` with no separator: split on whitespace runs,
dropping empty chunks. -/
def pySplit (s : String) : List String :=
  (pyWordsAux [] s.toList).map String.mk

/-- Python `set(s.lower().split())`: the set of lower-cased whitespace
tokens of a string. -/
def pyTerms (s : String) : Finset String :=
  (pySplit (pyLower s)).toFinset

/-- Source `calculate_bm25_score` (src/utils/vector.py lines 89-117):
simplified BM25 relevance of a document against a query. -/
def calculate_bm25_score (query text : String) : ℚ :=
  let query_terms := pyTerms query
  let doc_terms := pyTerms text
  if query_terms = ∅ ∨ doc_terms = ∅ then 0
  else
    let num_matches := (query_terms ∩ doc_terms).card
    let score : ℚ := (num_matches : ℚ) / (query_terms.card : ℚ)
    let length_ratio : ℚ := ((min doc_terms.card 100 : ℕ) : ℚ) / 100
    let length_factor : ℚ := 1/2 + length_ratio * (1/2)
    score * length_factor

/-- The spec's own description of the lexical scorer (spec section 4.2),
for comparison with the source function `calculate_bm25_score`. -/
def lexicalScore_spec (query document : String) : ℚ :=
  let qT := pyTerms query
  let dT := pyTerms document
  if qT.card = 0 then 0
  else ((qT ∩ dT).card : ℚ) / (qT.card : ℚ)
        * (1/2 + 1/2 * (((min dT.card 100 : ℕ) : ℚ) / 100))

/-- Elementwise dot product of two equal-length vectors. -/
def dotList (v1 v2 : List ℚ) : ℚ :=
  (List.zipWith (fun a b => a * b) v1 v2).sum

/-- Model of `np.dot` on 1-D arrays: raises `ValueError` when the shapes
disagree, otherwise the dot product. -/
def np_dot (v1 v2 : List ℚ) : Except PyErr ℚ :=
  if v1.length = v2.length then .ok (dotList v1 v2) else .error .valueError

/-- Squared Euclidean norm; `np.linalg.norm v = Real.sqrt (normSq v)`,
and the norm vanishes exactly when `normSq` does. -/
def normSq (v : List ℚ) : ℚ := dotList v v

/-- Exact rational square root: the true square root when the reduced
numerator and denominator are perfect squares (which covers every vector
norm evaluated concretely in this development), and a junk value 0
otherwise. -/
def sqrtQ (q : ℚ) : ℚ :=
  if 0 ≤ q ∧ Nat.sqrt q.num.toNat * Nat.sqrt q.num.toNat = q.num.toNat
      ∧ Nat.sqrt q.den * Nat.sqrt q.den = q.den
  then (Nat.sqrt q.num.toNat : ℚ) / (Nat.sqrt q.den : ℚ)
  else 0

/-- Source `calculate_similarity` (src/utils/vector.py lines 59-86): cosine
similarity of two vectors. The zero-magnitude guard `magnitude1 == 0 or
magnitude2 == 0` is phrased on the squared norms, the exact quantities the
magnitudes are square roots of. `np.dot` raises on mismatched lengths. -/
def calculate_similarity (vec1 vec2 : List ℚ) : Except PyErr ℚ := do
  let dot_product ← np_dot vec1 vec2
  let magnitude1 := sqrtQ (normSq vec1)
  let magnitude2 := sqrtQ (normSq vec2)
  if normSq vec1 = 0 ∨ normSq vec2 = 0 then
    return 0
  else
    return dot_product / (magnitude1 * magnitude2)

deriving instance DecidableEq for Except

/-- Memory record (src/models.py class Memory), restricted to the columns
the search and connection engines read. The `embedding` column is declared
`Column(ARRAY(Float))` and every writer stores a float list, so the stored
value is an optional list of floats (`none` models SQL NULL). -/
structure Memory where
  content : String
  embedding : Option (List ℚ)
  importance_score : Option ℚ
  created_at : ℤ
  updated_at : Option ℤ
deriving DecidableEq

/-- Python truthiness of the stored `embedding` value, as tested by
`if memory.embedding` (src/utils/vector.py line 172): `None` and the empty
list are falsy, any non-empty list is truthy. -/
def py_truthy (e : Option (List ℚ)) : Bool :=
  match e with
  | none => false
  | some v => !v.isEmpty

/-- Model of `json.loads(memory.embedding)` (src/utils/vector.py line 172)
on a truthy stored value: the column type is `ARRAY(Float)`, so the value
handed to `json.loads` is a Python list, and `json.loads` accepts only
str, bytes or bytearray — it raises `TypeError` unconditionally. -/
def json_loads_floats (_v : List ℚ) : Except PyErr (List ℚ) :=
  .error .typeError

/-- Embedding-provider behaviour for one run: the outcome of the OpenAI
call per input text, and the random fallback vector drawn when the call
fails or no API key is configured. -/
structure Provider where
  embed : String → Except PyErr (List ℚ)
  fallback : String → List ℚ

/-- Source `generate_embedding` (src/utils/vector.py lines 21-56): returns
the provider's embedding, or the random fallback vector when the API key is
unset or the provider call raises (the exception is logged, never
propagated). -/
def generate_embedding (p : Provider) (text : String) : List ℚ :=
  match p.embed text with
  | .ok embedding => embedding
  | .error _ => p.fallback text

/-- Source `process_memory_embedding` (src/utils/vector.py lines 214-226):
wraps `generate_embedding`; its own except-branch returning `[]` is
unreachable because `generate_embedding` is total. -/
def process_memory_embedding (p : Provider) (content : String) : List ℚ :=
  generate_embedding p content

/-- Source expression `(memory.updated_at - memory.created_at).days if
memory.updated_at else 0` (src/utils/vector.py line 188). -/
def days_old (m : Memory) : ℤ :=
  match m.updated_at with
  | some u => u - m.created_at
  | none => 0

/-- Source expression `1.0 - (min(days_old, 365) / 365 * 0.1)`
(src/utils/vector.py line 189). -/
def recency_factor (m : Memory) : ℚ :=
  1 - ((min (days_old m) 365 : ℤ) : ℚ) / 365 * (1/10)

/-- Source expression `memory.importance_score if memory.importance_score
is not None else 0.5` (src/utils/vector.py line 192). -/
def importance_boost (m : Memory) : ℚ :=
  m.importance_score.getD (1/2)

/-- Body of the scoring loop of `memory_similarity_search`
(src/utils/vector.py lines 170-195): resolve the candidate's embedding
(`json.loads` over a truthy stored value — which raises `TypeError` on the
ARRAY(Float) column — or a freshly generated one otherwise), compute
vector similarity, optionally blend with the BM25 keyword score, and apply
the recency and importance boosts. Any exception propagates. -/
def score_memory (p : Provider) (query : String) (query_embedding : List ℚ)
    (hybrid_search : Bool) (vector_weight keyword_weight : ℚ) (m : Memory) :
    Except PyErr ℚ := do
  let memory_embedding ←
    if py_truthy m.embedding then json_loads_floats (m.embedding.getD [])
    else Except.ok (process_memory_embedding p m.content)
  let vector_similarity ← calculate_similarity query_embedding memory_embedding
  let combined_score :=
    if hybrid_search then
      vector_similarity * vector_weight
        + calculate_bm25_score query m.content * keyword_weight
    else
      vector_similarity
  return combined_score * recency_factor m
      * (4/5 + importance_boost m * (1/5))

/-- The `for memory in memories` loop of `memory_similarity_search`
(src/utils/vector.py lines 170-198): scores each candidate in order and
keeps, in input order, the pairs whose final score reaches the threshold.
An exception from any candidate propagates out of the loop. -/
def score_and_filter (p : Provider) (query : String) (query_embedding : List ℚ)
    (threshold : ℚ) (hybrid_search : Bool) (vector_weight keyword_weight : ℚ) :
    List Memory → Except PyErr (List (Memory × ℚ))
  | [] => .ok []
  | m :: ms => do
    let final_score ← score_memory p query query_embedding hybrid_search
        vector_weight keyword_weight m
    let rest ← score_and_filter p query query_embedding threshold hybrid_search
        vector_weight keyword_weight ms
    if threshold ≤ final_score then
      return (m, final_score) :: rest
    else
      return rest

/-- Ordering used by `scored_memories.sort(key=lambda x: x[1], reverse=True)`:
higher final score first; Python's sort is stable. -/
def byScoreDesc (a b : Memory × ℚ) : Prop := b.2 ≤ a.2

instance : DecidableRel byScoreDesc :=
  fun a b => inferInstanceAs (Decidable (b.2 ≤ a.2))

instance : IsTotal (Memory × ℚ) byScoreDesc :=
  ⟨fun a b => le_total b.2 a.2⟩

instance : IsTrans (Memory × ℚ) byScoreDesc :=
  ⟨fun _ _ _ h1 h2 => le_trans h2 h1⟩

/-- The try-block of `memory_similarity_search` (src/utils/vector.py lines
151-207): embed the query, score and filter the pool, stable-sort by score
descending, truncate to `limit`, and drop the scores. -/
def memory_similarity_search_body (p : Provider) (query : String)
    (memories : List Memory) (limit : ℕ) (threshold : ℚ)
    (hybrid_search : Bool) (vector_weight keyword_weight : ℚ) :
    Except PyErr (List Memory) := do
  let query_embedding := generate_embedding p query
  let scored_memories ← score_and_filter p query query_embedding threshold
      hybrid_search vector_weight keyword_weight memories
  let sorted := scored_memories.insertionSort byScoreDesc
  return (sorted.take limit).map Prod.fst

/-- Source `memory_similarity_search` (src/utils/vector.py lines 119-212):
the whole body sits in a single try/except whose handler logs and returns
the empty list. -/
def memory_similarity_search (p : Provider) (query : String)
    (memories : List Memory) (limit : ℕ) (threshold : ℚ)
    (hybrid_search : Bool) (vector_weight keyword_weight : ℚ) : List Memory :=
  match memory_similarity_search_body p query memories limit threshold
      hybrid_search vector_weight keyword_weight with
  | .ok results => results
  | .error _ => []

/-- Python `round` restricted to integers: round half to even. -/
def py_round_int (q : ℚ) : ℤ :=
  if q - ⌊q⌋ < 1/2 then ⌊q⌋
  else if 1/2 < q - ⌊q⌋ then ⌊q⌋ + 1
  else if ⌊q⌋ % 2 = 0 then ⌊q⌋ else ⌊q⌋ + 1

/-- Python `round(x, 4)` modelled exactly on rationals. -/
def round4 (q : ℚ) : ℚ := (py_round_int (q * 10000) : ℚ) / 10000

/-- The `scoring` dictionary built by `detailed_memory_search`
(src/utils/vector.py lines 300-310); the term list produced from a Python
set is modelled as the set itself. -/
structure Scoring where
  final_score : ℚ
  vector_similarity : ℚ
  keyword_score : ℚ
  combined_score : ℚ
  recency_factor : ℚ
  importance_factor : ℚ
  matched_terms : Finset String
  total_terms_matched : ℕ
  query_term_count : ℕ
deriving DecidableEq

/-- One entry of the list returned by `detailed_memory_search`. -/
structure DetailedResult where
  memory : Memory
  scoring : Scoring
deriving DecidableEq

/-- Body of the scoring loop of `detailed_memory_search`
(src/utils/vector.py lines 267-312): same scoring computation as the plain
search (always hybrid), returning the unrounded final score together with
the detailed scoring record. -/
def score_memory_detailed (p : Provider) (query : String)
    (query_embedding : List ℚ) (vector_weight keyword_weight : ℚ)
    (m : Memory) : Except PyErr (ℚ × Scoring) := do
  let memory_embedding ←
    if py_truthy m.embedding then json_loads_floats (m.embedding.getD [])
    else Except.ok (process_memory_embedding p m.content)
  let vector_similarity ← calculate_similarity query_embedding memory_embedding
  let keyword_score := calculate_bm25_score query m.content
  let combined_score := vector_similarity * vector_weight
      + keyword_score * keyword_weight
  let recency := recency_factor m
  let importance_factor := 4/5 + importance_boost m * (1/5)
  let final_score := combined_score * recency * importance_factor
  let query_terms := pyTerms query
  let memory_terms := pyTerms m.content
  let matched_terms := query_terms ∩ memory_terms
  return (final_score,
    { final_score := round4 final_score
      vector_similarity := round4 vector_similarity
      keyword_score := round4 keyword_score
      combined_score := round4 combined_score
      recency_factor := round4 recency
      importance_factor := round4 importance_factor
      matched_terms := matched_terms
      total_terms_matched := matched_terms.card
      query_term_count := query_terms.card })

/-- The `for memory in memories` loop of `detailed_memory_search`
(src/utils/vector.py lines 267-312): keeps, in input order, the detailed
records of the candidates whose unrounded final score reaches the
threshold. -/
def detailed_score_and_filter (p : Provider) (query : String)
    (query_embedding : List ℚ) (threshold : ℚ)
    (vector_weight keyword_weight : ℚ) :
    List Memory → Except PyErr (List DetailedResult)
  | [] => .ok []
  | m :: ms => do
    let scored ← score_memory_detailed p query query_embedding
        vector_weight keyword_weight m
    let rest ← detailed_score_and_filter p query query_embedding threshold
        vector_weight keyword_weight ms
    if threshold ≤ scored.1 then
      return ⟨m, scored.2⟩ :: rest
    else
      return rest

/-- Ordering used by the sort on `x["scoring"]["final_score"]`
(src/utils/vector.py line 315), descending and stable. -/
def byDetailedScoreDesc (a b : DetailedResult) : Prop :=
  b.scoring.final_score ≤ a.scoring.final_score

instance : DecidableRel byDetailedScoreDesc :=
  fun a b =>
    inferInstanceAs (Decidable (b.scoring.final_score ≤ a.scoring.final_score))

instance : IsTotal DetailedResult byDetailedScoreDesc :=
  ⟨fun a b => le_total b.scoring.final_score a.scoring.final_score⟩

instance : IsTrans DetailedResult byDetailedScoreDesc :=
  ⟨fun _ _ _ h1 h2 => le_trans h2 h1⟩

/-- The try-block of `detailed_memory_search` (src/utils/vector.py lines
248-318). -/
def detailed_memory_search_body (p : Provider) (query : String)
    (memories : List Memory) (limit : ℕ) (threshold : ℚ)
    (vector_weight keyword_weight : ℚ) :
    Except PyErr (List DetailedResult) := do
  let query_embedding := generate_embedding p query
  let detailed_results ← detailed_score_and_filter p query query_embedding
      threshold vector_weight keyword_weight memories
  return ((detailed_results.insertionSort byDetailedScoreDesc).take limit)

/-- Source `detailed_memory_search` (src/utils/vector.py lines 228-323):
the whole body sits in a single try/except whose handler logs and returns
the empty list. -/
def detailed_memory_search (p : Provider) (query : String)
    (memories : List Memory) (limit : ℕ) (threshold : ℚ)
    (vector_weight keyword_weight : ℚ) : List DetailedResult :=
  match detailed_memory_search_body p query memories limit threshold
      vector_weight keyword_weight with
  | .ok results => results
  | .error _ => []

/-- Cue substrings for `contradicts` (src/utils/memory_connections.py
line 50). -/
def contradiction_indicators : List String :=
  ["however", "but", "instead", "contrary", "disagree", "opposite", "unlike"]

/-- Cue substrings for `prerequisite` (line 57). -/
def prerequisite_indicators : List String :=
  ["first", "before", "prior", "foundation", "basis", "fundamental"]

/-- Cue substrings for `followup` (line 63). -/
def followup_indicators : List String :=
  ["next", "then", "after", "followup", "following", "subsequently"]

/-- Cue substrings for `elaborates` (line 69). -/
def elaboration_indicators : List String :=
  ["detail", "specifically", "elaborat", "expand", "more on", "further"]

/-- Cue substrings for `summarizes` (line 75). -/
def summary_indicators : List String :=
  ["summary", "conclusion", "overview", "in short", "to summarize", "in brief"]

/-- Python `any(indicator in s for indicator in indicators)`. -/
def hasAnyIndicator (indicators : List String) (s : String) : Bool :=
  indicators.any (fun ind => pyInStr ind s)

/-- Jaccard similarity of the two topic sets (src/utils/memory_connections.py
lines 37-39): `len(common)/len(all) if all_topics else 0`. -/
def topic_similarity (source_topics target_topics : Finset String) : ℚ :=
  if source_topics ∪ target_topics = ∅ then 0
  else ((source_topics ∩ target_topics).card : ℚ)
        / ((source_topics ∪ target_topics).card : ℚ)

/-- Model of the statements `source_topics = set(extract_key_topics(...))`
(src/utils/memory_connections.py lines 33-34): `extract_key_topics` is
`async def` (src/utils/ai.py line 16) and is called here without `await`
(unlike its call sites in conversations.py, which do await it), so the
call returns a coroutine object and `set()` over it raises `TypeError`
on every invocation. -/
def set_of_unawaited_topics (_content : String) : Except PyErr (Finset String) :=
  .error .typeError

/-- The cue logic of `analyze_potential_connection`
(src/utils/memory_connections.py lines 36-84), embedded over the topic
sets the preceding `set(extract_key_topics(...))` statements were intended
to produce. In the source this code is dead: both of those statements
raise `TypeError` first. The source's sequence of `if` statements, each
overwriting `connection_type`/`connection_strength`, is modelled by
sequential shadowing in the same order. -/
def connection_cue_logic (source_topics target_topics : Finset String)
    (source_memory target_memory : Memory) : String × ℚ :=
  let common_topics := source_topics ∩ target_topics
  let sim := topic_similarity source_topics target_topics
  let source_lower := pyLower source_memory.content
  let target_lower := pyLower target_memory.content
  let step0 : String × ℚ := ("related", min (2/5 + sim) 1)
  let step1 := if hasAnyIndicator contradiction_indicators source_lower
      || hasAnyIndicator contradiction_indicators target_lower
    then ("contradicts", (7 : ℚ)/10) else step0
  let step2 := if hasAnyIndicator prerequisite_indicators source_lower
    then ("prerequisite", (4 : ℚ)/5) else step1
  let step3 := if hasAnyIndicator followup_indicators source_lower
    then ("followup", (4 : ℚ)/5) else step2
  let step4 := if hasAnyIndicator elaboration_indicators source_lower
    then ("elaborates", (9 : ℚ)/10) else step3
  let step5 := if hasAnyIndicator summary_indicators source_lower
    then ("summarizes", (9 : ℚ)/10) else step4
  if common_topics.card < 2 ∧ step5.1 = "related"
  then (step5.1, min step5.2 (1/2))
  else step5

/-- Source `analyze_potential_connection` (src/utils/memory_connections.py
lines 22-84), modelled faithfully: its first statement already raises
`TypeError` (the un-awaited `extract_key_topics` coroutine is handed to
`set()`), so the function never returns a connection and the cue logic
below is unreachable. -/
def analyze_potential_connection (source_memory target_memory : Memory) :
    Except PyErr (String × ℚ) := do
  let source_topics ← set_of_unawaited_topics source_memory.content
  let target_topics ← set_of_unawaited_topics target_memory.content
  return connection_cue_logic source_topics target_topics
      source_memory target_memory

/-! ## Generic evaluation helpers -/

theorem sqrtQ_one : sqrtQ 1 = 1 := by
  simp [sqrtQ]

theorem calculate_bm25_eval (query text : String)
    (hq : ¬ pyTerms query = ∅) (hd : ¬ pyTerms text = ∅) :
    calculate_bm25_score query text =
      ((pyTerms query ∩ pyTerms text).card : ℚ) / ((pyTerms query).card : ℚ)
        * (1/2 + ((min (pyTerms text).card 100 : ℕ) : ℚ)/100 * (1/2)) := by
  simp [calculate_bm25_score, hq, hd]

/-! ## C8: lexical score definition and bounds -/

/-- C8: for every query and document, `calculate_bm25_score` equals the
spec's lexical-score formula over lower-cased whitespace term sets, lies in
the interval from 0 to 1, is 0 when the query has no terms, and is 0 on the
empty document. -/
theorem lexical_score_claim (query document : String) :
    calculate_bm25_score query document = lexicalScore_spec query document ∧
    0 ≤ calculate_bm25_score query document ∧
    calculate_bm25_score query document ≤ 1 ∧
    (pyTerms query = ∅ → calculate_bm25_score query document = 0) ∧
    calculate_bm25_score query "" = 0 := by
  have hlast : calculate_bm25_score query "" = 0 := by
    have h : pyTerms "" = ∅ := by decide
    simp [calculate_bm25_score, h]
  by_cases hq : pyTerms query = ∅
  · have h0 : calculate_bm25_score query document = 0 := by
      simp [calculate_bm25_score, hq]
    have hs : lexicalScore_spec query document = 0 := by
      simp [lexicalScore_spec, hq]
    exact ⟨h0.trans hs.symm, by rw [h0], by rw [h0]; norm_num, fun _ => h0, hlast⟩
  · by_cases hd : pyTerms document = ∅
    · have h0 : calculate_bm25_score query document = 0 := by
        simp [calculate_bm25_score, hd]
      have hc : (pyTerms query ∩ pyTerms document).card = 0 := by simp [hd]
      have hs : lexicalScore_spec query document = 0 := by
        simp [lexicalScore_spec, hc]
      exact ⟨h0.trans hs.symm, by rw [h0], by rw [h0]; norm_num,
        fun h => absurd h hq, hlast⟩
    · have hqc : 0 < (pyTerms query).card :=
        Finset.card_pos.mpr (Finset.nonempty_iff_ne_empty.mpr hq)
      have hqQ : (0:ℚ) < ((pyTerms query).card : ℚ) := by exact_mod_cast hqc
      have heval := calculate_bm25_eval query document hq hd
      have hspec : lexicalScore_spec query document =
          ((pyTerms query ∩ pyTerms document).card : ℚ) / ((pyTerms query).card : ℚ)
            * (1/2 + 1/2 * (((min (pyTerms document).card 100 : ℕ) : ℚ)/100)) := by
        simp [lexicalScore_spec, Nat.pos_iff_ne_zero.mp hqc]
      have hsc0 : (0:ℚ) ≤ ((pyTerms query ∩ pyTerms document).card : ℚ)
          / ((pyTerms query).card : ℚ) := div_nonneg (by positivity) hqQ.le
      have hsc1 : ((pyTerms query ∩ pyTerms document).card : ℚ)
          / ((pyTerms query).card : ℚ) ≤ 1 := by
        rw [div_le_one hqQ]
        exact_mod_cast Finset.card_le_card Finset.inter_subset_left
      have hr : ((min (pyTerms document).card 100 : ℕ) : ℚ) ≤ 100 := by
        exact_mod_cast min_le_right (pyTerms document).card 100
      have hr0 : (0:ℚ) ≤ ((min (pyTerms document).card 100 : ℕ) : ℚ) := by positivity
      refine ⟨by rw [heval, hspec]; ring, ?_, ?_, fun h => absurd h hq, hlast⟩
      · rw [heval]
        have h2 : (0:ℚ) ≤ 1/2 + ((min (pyTerms document).card 100 : ℕ) : ℚ)/100 * (1/2) := by
          linarith
        exact mul_nonneg hsc0 h2
      · rw [heval]
        have h2a : (0:ℚ) ≤ 1/2 + ((min (pyTerms document).card 100 : ℕ) : ℚ)/100 * (1/2) := by
          linarith
        have h2b : 1/2 + ((min (pyTerms document).card 100 : ℕ) : ℚ)/100 * (1/2) ≤ 1 := by
          linarith
        exact mul_le_one₀ hsc1 h2a h2b

/-- Witness for C8 at a concrete query and document. -/
theorem lexical_score_claim_witness :
    calculate_bm25_score "a" "a b" = lexicalScore_spec "a" "a b" ∧
    0 ≤ calculate_bm25_score "a" "a b" ∧
    calculate_bm25_score "a" "a b" ≤ 1 ∧
    (pyTerms "a" = ∅ → calculate_bm25_score "a" "a b" = 0) ∧
    calculate_bm25_score "a" "" = 0 :=
  lexical_score_claim "a" "a b"

/-! ## C10: connection strength range -/

theorem topic_similarity_nonneg (a b : Finset String) :
    0 ≤ topic_similarity a b := by
  unfold topic_similarity
  split
  · exact le_refl 0
  · positivity

/-- C10 (code bug): `analyze_potential_connection` never returns a
strength — every invocation raises `TypeError` at the un-awaited
`set(extract_key_topics(...))` before the cue logic runs — while the cue
logic it was intended to run always yields a strength between 0.4 and 1,
as the claim states. -/
theorem connection_strength_range (source_topics target_topics : Finset String)
    (s t : Memory) :
    analyze_potential_connection s t = .error .typeError ∧
    2/5 ≤ (connection_cue_logic source_topics target_topics s t).2 ∧
    (connection_cue_logic source_topics target_topics s t).2 ≤ 1 := by
  have hJ := topic_similarity_nonneg source_topics target_topics
  refine ⟨rfl, ?_⟩
  simp only [connection_cue_logic]
  split_ifs <;> simp_all [le_min_iff, min_le_iff] <;> norm_num

/-! ## C6: cue priority cascade -/

/-- C6 (code bug): `analyze_potential_connection` never reaches a cue
check — every invocation raises `TypeError` at the un-awaited
`set(extract_key_topics(...))` — while its cue logic, as the claim states,
decides type and strength by the highest-priority matching cue set, in the
order summary, elaboration, followup, prerequisite, contradiction (the
source applies the checks in the reverse order with overwriting, so the
later check wins); only the contradiction cues are also matched against
the target's content. -/
theorem connection_cue_priority (source_topics target_topics : Finset String)
    (s t : Memory) :
    analyze_potential_connection s t = .error .typeError ∧
    (hasAnyIndicator summary_indicators (pyLower s.content) = true →
      connection_cue_logic source_topics target_topics s t
        = ("summarizes", 9/10)) ∧
    (hasAnyIndicator summary_indicators (pyLower s.content) = false →
     hasAnyIndicator elaboration_indicators (pyLower s.content) = true →
      connection_cue_logic source_topics target_topics s t
        = ("elaborates", 9/10)) ∧
    (hasAnyIndicator summary_indicators (pyLower s.content) = false →
     hasAnyIndicator elaboration_indicators (pyLower s.content) = false →
     hasAnyIndicator followup_indicators (pyLower s.content) = true →
      connection_cue_logic source_topics target_topics s t
        = ("followup", 4/5)) ∧
    (hasAnyIndicator summary_indicators (pyLower s.content) = false →
     hasAnyIndicator elaboration_indicators (pyLower s.content) = false →
     hasAnyIndicator followup_indicators (pyLower s.content) = false →
     hasAnyIndicator prerequisite_indicators (pyLower s.content) = true →
      connection_cue_logic source_topics target_topics s t
        = ("prerequisite", 4/5)) ∧
    (hasAnyIndicator summary_indicators (pyLower s.content) = false →
     hasAnyIndicator elaboration_indicators (pyLower s.content) = false →
     hasAnyIndicator followup_indicators (pyLower s.content) = false →
     hasAnyIndicator prerequisite_indicators (pyLower s.content) = false →
     (hasAnyIndicator contradiction_indicators (pyLower s.content)
        || hasAnyIndicator contradiction_indicators (pyLower t.content)) = true →
      connection_cue_logic source_topics target_topics s t
        = ("contradicts", 7/10)) := by
  refine ⟨rfl, fun h5 => ?_, fun h5 h4 => ?_, fun h5 h4 h3 => ?_,
    fun h5 h4 h3 h2 => ?_, fun h5 h4 h3 h2 h1 => ?_⟩ <;>
    simp [connection_cue_logic, h5, *]

def memC6s : Memory :=
  { content := "however, the summary", embedding := none,
    importance_score := none, created_at := 0, updated_at := none }

def memC6t : Memory :=
  { content := "x", embedding := none, importance_score := none,
    created_at := 0, updated_at := none }

/-- Witness for C6: the source function raises on the concrete pair, and
the cue logic classifies a source containing both a contradiction cue
("however") and a summary cue ("summary") as `summarizes` with
strength 0.9. -/
theorem connection_cue_priority_witness :
    analyze_potential_connection memC6s memC6t = .error .typeError ∧
    connection_cue_logic ∅ ∅ memC6s memC6t = ("summarizes", 9/10) :=
  ⟨(connection_cue_priority ∅ ∅ memC6s memC6t).1,
    (connection_cue_priority ∅ ∅ memC6s memC6t).2.1 (by decide)⟩

/-! ## C7: baseline related connection with low-overlap cap -/

/-- C7 (code bug): `analyze_potential_connection` raises `TypeError`
before the baseline or the cap ever executes; its cue logic, as the claim
states, yields for contents with no cue substrings (nor contradiction cues
in the target) a `related` connection of strength `min (0.4 + Jaccard) 1`,
further capped at 0.5 when the two records share fewer than two topics. -/
theorem connection_baseline_related (source_topics target_topics : Finset String)
    (s t : Memory)
    (h1 : hasAnyIndicator contradiction_indicators (pyLower s.content) = false)
    (h2 : hasAnyIndicator contradiction_indicators (pyLower t.content) = false)
    (h3 : hasAnyIndicator prerequisite_indicators (pyLower s.content) = false)
    (h4 : hasAnyIndicator followup_indicators (pyLower s.content) = false)
    (h5 : hasAnyIndicator elaboration_indicators (pyLower s.content) = false)
    (h6 : hasAnyIndicator summary_indicators (pyLower s.content) = false) :
    analyze_potential_connection s t = .error .typeError ∧
    connection_cue_logic source_topics target_topics s t =
      ("related",
        if (source_topics ∩ target_topics).card < 2
        then min (min (2/5 + topic_similarity source_topics target_topics) 1)
          (1/2)
        else min (2/5 + topic_similarity source_topics target_topics) 1) := by
  refine ⟨rfl, ?_⟩
  simp [connection_cue_logic, h1, h2, h3, h4, h5, h6]
  split_ifs <;> simp

def memC7s : Memory :=
  { content := "marketing summer", embedding := none,
    importance_score := none, created_at := 0, updated_at := none }

def memC7t : Memory :=
  { content := "marketing launch", embedding := none,
    importance_score := none, created_at := 0, updated_at := none }

/-- Witness for C7: the source function raises on the concrete pair, and
the cue logic at the spec scenario — topic sets {marketing, summer} and
{marketing, launch} (Jaccard 1/3, one common topic) — yields a `related`
connection of strength 0.5. -/
theorem connection_baseline_related_witness :
    analyze_potential_connection memC7s memC7t = .error .typeError ∧
    connection_cue_logic (["marketing", "summer"] : List String).toFinset
      (["marketing", "launch"] : List String).toFinset memC7s memC7t
      = ("related", 1/2) := by
  have h := connection_baseline_related
    (["marketing", "summer"] : List String).toFinset
    (["marketing", "launch"] : List String).toFinset memC7s memC7t
    (by decide) (by decide) (by decide) (by decide) (by decide) (by decide)
  refine ⟨h.1, ?_⟩
  rw [h.2, if_pos (by decide)]
  rw [show topic_similarity (["marketing", "summer"] : List String).toFinset
      (["marketing", "launch"] : List String).toFinset = 1/3 from ?_]
  · norm_num [min_def]
  · rw [topic_similarity, if_neg (by decide)]
    rw [show ((["marketing", "summer"] : List String).toFinset ∩
        (["marketing", "launch"] : List String).toFinset).card = 1
      from by decide]
    rw [show ((["marketing", "summer"] : List String).toFinset ∪
        (["marketing", "launch"] : List String).toFinset).card = 3
      from by decide]
    norm_num

/-! ## Helpers for the scoring pipeline -/

theorem score_memory_truthy_error (p : Provider) (q : String) (qe : List ℚ)
    (hybrid : Bool) (vw kw : ℚ) (m : Memory)
    (h : py_truthy m.embedding = true) :
    score_memory p q qe hybrid vw kw m = .error .typeError := by
  simp [score_memory, h, json_loads_floats, bind, Except.bind]

theorem score_memory_fresh_eq_map (p : Provider) (q : String) (qe : List ℚ)
    (hybrid : Bool) (vw kw : ℚ) (m : Memory)
    (h : py_truthy m.embedding = false) :
    score_memory p q qe hybrid vw kw m =
      (calculate_similarity qe (process_memory_embedding p m.content)).map (fun v =>
        (if hybrid then v * vw + calculate_bm25_score q m.content * kw else v)
          * recency_factor m * (4/5 + importance_boost m * (1/5))) := by
  cases hs : calculate_similarity qe (process_memory_embedding p m.content) <;>
    simp [score_memory, h, hs, Except.map, bind, Except.bind, Functor.map, pure, Except.pure]

theorem similarity_one : calculate_similarity [1] [1] = .ok 1 := by
  simp [calculate_similarity, np_dot, dotList, normSq, sqrtQ_one]

/-! ## C3: relevance score formula -/

/-- C3 (code bug): the claim's formula is the code's scoring formula, but
a record with a truthy stored embedding never reaches it — `json.loads`
over the ARRAY(Float) value raises `TypeError` (and the search aborts) —
so the formula only ever applies to records without a truthy stored
embedding, whose vector the provider generates at scoring time: for those,
hybrid scoring yields
`(vector_similarity*vw + keyword_score*kw) * recency_factor *
(0.8 + importance*0.2)` with
`recency_factor = 1 - min(updated - created, 365)/365 * 0.1`; in
particular vector similarity 0.9, keyword score 1, weights 0.7/0.3,
equal timestamps and importance 1 give final score 0.93. -/
theorem relevance_score_formula :
    (∀ (p : Provider) (q : String) (qe : List ℚ) (hybrid : Bool)
       (vw kw : ℚ) (m : Memory), py_truthy m.embedding = true →
      score_memory p q qe hybrid vw kw m = .error .typeError) ∧
    (∀ (p : Provider) (query : String) (qe : List ℚ) (vw kw : ℚ)
       (m : Memory) (v imp : ℚ) (u : ℤ),
      py_truthy m.embedding = false →
      calculate_similarity qe (process_memory_embedding p m.content) = .ok v →
      m.importance_score = some imp → 0 ≤ imp → imp ≤ 1 →
      m.updated_at = some u →
      score_memory p query qe true vw kw m =
        .ok ((v * vw + calculate_bm25_score query m.content * kw)
          * (1 - ((min (u - m.created_at) 365 : ℤ) : ℚ) / 365 * (1/10))
          * (4/5 + imp * (1/5))) ∧
      (v = 9/10 → calculate_bm25_score query m.content = 1 → vw = 7/10 →
       kw = 3/10 → u = m.created_at → imp = 1 →
        score_memory p query qe true vw kw m = .ok (93/100))) := by
  refine ⟨fun p q qe hybrid vw kw m h =>
    score_memory_truthy_error p q qe hybrid vw kw m h, ?_⟩
  intro p query qe vw kw m v imp u hfresh hsim himp h0 h1 hupd
  have hmain : score_memory p query qe true vw kw m =
      .ok ((v * vw + calculate_bm25_score query m.content * kw)
        * (1 - ((min (u - m.created_at) 365 : ℤ) : ℚ) / 365 * (1/10))
        * (4/5 + imp * (1/5))) := by
    rw [score_memory_fresh_eq_map p query qe true vw kw m hfresh, hsim]
    simp [Except.map, recency_factor, days_old, hupd, importance_boost, himp]
  refine ⟨hmain, fun hv hbm hvw hkw hu himp1 => ?_⟩
  rw [hmain, hv, hbm, hvw, hkw, hu, himp1]
  rw [show (min ((m.created_at : ℤ) - m.created_at) 365 : ℤ) = 0 by simp]
  norm_num

def providerC3 : Provider :=
  ⟨fun _ => .ok [9/10, 3/10, 3/10, 1/10], fun _ => []⟩

def memC3 : Memory := ⟨"marketing strategy", none, some 1, 0, some 0⟩

def memC3bad : Memory := ⟨"x", some [1], some 1, 0, none⟩

theorem similarity_C3 :
    calculate_similarity [1, 0, 0, 0] [9/10, 3/10, 3/10, 1/10] = .ok (9/10) := by
  have hd : dotList [(1:ℚ), 0, 0, 0] [9/10, 3/10, 3/10, 1/10] = 9/10 := by
    simp [dotList]
  have h1 : normSq [(1:ℚ), 0, 0, 0] = 1 := by
    simp [normSq, dotList]
  have h2 : normSq [(9:ℚ)/10, 3/10, 3/10, 1/10] = 1 := by
    simp [normSq, dotList]
    norm_num
  simp [calculate_similarity, np_dot, hd, h1, h2, sqrtQ_one,
    bind, Except.bind, pure, Except.pure, -one_div]

/-- Witness for C3: a record with a truthy stored embedding makes scoring
raise `TypeError`, and a record without one — its vector generated by the
provider, with vector similarity 0.9, equal timestamps and importance 1 —
is scored by the formula. -/
theorem relevance_score_formula_witness :
    score_memory providerC3 "marketing strategy" [1, 0, 0, 0] true (7/10)
      (3/10) memC3bad = .error .typeError ∧
    score_memory providerC3 "marketing strategy" [1, 0, 0, 0] true (7/10)
      (3/10) memC3 =
      .ok (((9/10) * (7/10) + calculate_bm25_score "marketing strategy" memC3.content * (3/10))
        * (1 - ((min ((0:ℤ) - memC3.created_at) 365 : ℤ) : ℚ) / 365 * (1/10))
        * (4/5 + 1 * (1/5))) := by
  refine ⟨relevance_score_formula.1 providerC3 "marketing strategy"
    [1, 0, 0, 0] true (7/10) (3/10) memC3bad rfl, ?_⟩
  exact (relevance_score_formula.2 providerC3 "marketing strategy"
    [1, 0, 0, 0] (7/10) (3/10) memC3 (9/10) 1 0 rfl
    (by rw [show process_memory_embedding providerC3 memC3.content
          = [9/10, 3/10, 3/10, 1/10] from rfl]
        exact similarity_C3)
    rfl (by norm_num) (by norm_num) rfl).1

/-! ## C9: search entry points are total at the interface -/

/-- C9: neither search entry point ever propagates an exception: each wraps
its fallible body in a handler, returning the body's list on success and
the empty list on any internal error. -/
theorem search_interface_total (p : Provider) (query : String)
    (memories : List Memory) (limit : ℕ) (threshold : ℚ)
    (hybrid : Bool) (vw kw : ℚ) :
    (∀ e, memory_similarity_search_body p query memories limit threshold
        hybrid vw kw = .error e →
      memory_similarity_search p query memories limit threshold hybrid vw kw = []) ∧
    (∀ l, memory_similarity_search_body p query memories limit threshold
        hybrid vw kw = .ok l →
      memory_similarity_search p query memories limit threshold hybrid vw kw = l) ∧
    (∀ e, detailed_memory_search_body p query memories limit threshold vw kw
        = .error e →
      detailed_memory_search p query memories limit threshold vw kw = []) ∧
    (∀ l, detailed_memory_search_body p query memories limit threshold vw kw
        = .ok l →
      detailed_memory_search p query memories limit threshold vw kw = l) := by
  refine ⟨fun e h => ?_, fun l h => ?_, fun e h => ?_, fun l h => ?_⟩ <;>
    simp [memory_similarity_search, detailed_memory_search, h]

def providerC9 : Provider := ⟨fun _ => .ok [1], fun _ => [1]⟩

def memC9 : Memory := ⟨"a", some [1], some 1, 0, none⟩

theorem bodyC9_error :
    memory_similarity_search_body providerC9 "a" [memC9] 5 (1/2) true
      (7/10) (3/10) = .error .typeError := by
  simp [memory_similarity_search_body, score_and_filter, score_memory, memC9,
    py_truthy, json_loads_floats, bind, Except.bind, Functor.map, Except.map]

/-- Witness for C9: a candidate whose stored embedding fails to parse makes
the body error out, and the interface returns the empty list. -/
theorem search_interface_total_witness :
    memory_similarity_search_body providerC9 "a" [memC9] 5 (1/2) true
      (7/10) (3/10) = .error .typeError ∧
    memory_similarity_search providerC9 "a" [memC9] 5 (1/2) true
      (7/10) (3/10) = [] :=
  ⟨bodyC9_error,
    (search_interface_total providerC9 "a" [memC9] 5 (1/2) true
      (7/10) (3/10)).1 .typeError bodyC9_error⟩

/-! ## C4: determinism of search -/

theorem score_memory_provider_congr (p₁ p₂ : Provider) (q : String)
    (qe : List ℚ) (hybrid : Bool) (vw kw : ℚ) (m : Memory)
    (hm : py_truthy m.embedding = false →
      generate_embedding p₁ m.content = generate_embedding p₂ m.content) :
    score_memory p₁ q qe hybrid vw kw m = score_memory p₂ q qe hybrid vw kw m := by
  cases htr : py_truthy m.embedding with
  | true => simp [score_memory, htr]
  | false => simp [score_memory, htr, process_memory_embedding, hm htr]

theorem score_and_filter_provider_congr (p₁ p₂ : Provider) (q : String)
    (qe : List ℚ) (threshold : ℚ) (hybrid : Bool) (vw kw : ℚ)
    (ms : List Memory)
    (hms : ∀ m ∈ ms, py_truthy m.embedding = false →
      generate_embedding p₁ m.content = generate_embedding p₂ m.content) :
    score_and_filter p₁ q qe threshold hybrid vw kw ms =
      score_and_filter p₂ q qe threshold hybrid vw kw ms := by
  induction ms with
  | nil => rfl
  | cons a l ih =>
    have ha := hms a (List.mem_cons_self a l)
    have hl := fun m hm2 => hms m (List.mem_cons_of_mem a hm2)
    simp [score_and_filter,
      score_memory_provider_congr p₁ p₂ q qe hybrid vw kw a ha, ih hl]

/-- C4: two search invocations whose providers return the same embedding
for the query and for every candidate without a truthy stored embedding
(the only points at which the provider is consulted) produce identical
ordered output. -/
theorem search_deterministic (p₁ p₂ : Provider) (query : String)
    (memories : List Memory) (limit : ℕ) (threshold : ℚ)
    (hybrid : Bool) (vw kw : ℚ)
    (hq : generate_embedding p₁ query = generate_embedding p₂ query)
    (hm : ∀ m ∈ memories, py_truthy m.embedding = false →
      generate_embedding p₁ m.content = generate_embedding p₂ m.content) :
    memory_similarity_search p₁ query memories limit threshold hybrid vw kw =
      memory_similarity_search p₂ query memories limit threshold hybrid vw kw := by
  simp only [memory_similarity_search, memory_similarity_search_body]
  rw [hq, score_and_filter_provider_congr p₁ p₂ query
    (generate_embedding p₂ query) threshold hybrid vw kw memories hm]

def providerC4a : Provider := ⟨fun _ => .ok [1], fun _ => [1]⟩

def providerC4b : Provider :=
  ⟨fun s => if s = "other" then .ok [2] else .ok [1], fun _ => [5]⟩

def memC4 : Memory := ⟨"a", none, some 1, 0, none⟩

/-- Witness for C4: two providers that differ elsewhere but agree on the
consulted inputs give identical search output. -/
theorem search_deterministic_witness :
    generate_embedding providerC4a "q" = generate_embedding providerC4b "q" ∧
    memory_similarity_search providerC4a "q" [memC4] 5 (1/2) true (7/10) (3/10) =
      memory_similarity_search providerC4b "q" [memC4] 5 (1/2) true (7/10) (3/10) :=
  ⟨by decide,
    search_deterministic providerC4a providerC4b "q" [memC4] 5 (1/2) true
      (7/10) (3/10) (by decide) (by decide)⟩

/-! ## C1: partial-failure behaviour of search -/

theorem score_and_filter_error_of_mem (p : Provider) (q : String)
    (qe : List ℚ) (threshold : ℚ) (hybrid : Bool) (vw kw : ℚ)
    (ms : List Memory) (m : Memory) (e : PyErr)
    (hm : m ∈ ms) (he : score_memory p q qe hybrid vw kw m = .error e) :
    ∃ e2, score_and_filter p q qe threshold hybrid vw kw ms = .error e2 := by
  induction ms with
  | nil => cases hm
  | cons a l ih =>
    rcases List.mem_cons.mp hm with rfl | hmem
    · exact ⟨e, by simp [score_and_filter, he, bind, Except.bind]⟩
    · cases ha : score_memory p q qe hybrid vw kw a with
      | error e3 => exact ⟨e3, by simp [score_and_filter, ha, bind, Except.bind]⟩
      | ok s =>
        obtain ⟨e2, h2⟩ := ih hmem
        exact ⟨e2, by simp [score_and_filter, ha, h2, bind, Except.bind]⟩

/-- C1 (amended): a provider failure while obtaining a candidate's
embedding is absorbed inside `generate_embedding`, which substitutes the
random fallback vector, so the candidate is scored against that fallback
(not with vector similarity 0); and there is no per-candidate isolation:
an exception raised while scoring any single candidate makes the whole
search return the empty list. -/
theorem partial_failure_amended :
    (∀ (p : Provider) (q : String) (qe : List ℚ) (hybrid : Bool)
       (vw kw : ℚ) (m : Memory) (e : PyErr),
      py_truthy m.embedding = false → p.embed m.content = .error e →
      score_memory p q qe hybrid vw kw m =
        (calculate_similarity qe (p.fallback m.content)).map (fun v =>
          (if hybrid then v * vw + calculate_bm25_score q m.content * kw else v)
            * recency_factor m * (4/5 + importance_boost m * (1/5)))) ∧
    (∀ (p : Provider) (q : String) (ms : List Memory) (limit : ℕ)
       (threshold : ℚ) (hybrid : Bool) (vw kw : ℚ) (m : Memory) (e : PyErr),
      m ∈ ms →
      score_memory p q (generate_embedding p q) hybrid vw kw m = .error e →
      memory_similarity_search p q ms limit threshold hybrid vw kw = []) := by
  constructor
  · intro p q qe hybrid vw kw m e hfresh hfail
    rw [score_memory_fresh_eq_map p q qe hybrid vw kw m hfresh,
      process_memory_embedding, generate_embedding, hfail]
  · intro p q ms limit threshold hybrid vw kw m e hm he
    obtain ⟨e2, h2⟩ := score_and_filter_error_of_mem p q
      (generate_embedding p q) threshold hybrid vw kw ms m e hm he
    simp [memory_similarity_search, memory_similarity_search_body, h2,
      bind, Except.bind]

def providerC1 : Provider := ⟨fun _ => .ok [1], fun _ => [1]⟩

def memC1bad : Memory := ⟨"alpha", some [1], some 1, 0, none⟩

def memC1good : Memory := ⟨"alpha", none, some 1, 0, none⟩

def providerC1f : Provider := ⟨fun _ => .error .valueError, fun _ => [1]⟩

def memC1f : Memory := ⟨"alpha", none, some 1, 0, none⟩

theorem bm25_alpha : calculate_bm25_score "alpha" "alpha" = 101/200 := by
  rw [calculate_bm25_eval _ _ (by decide) (by decide)]
  rw [show (pyTerms "alpha" ∩ pyTerms "alpha").card = 1 by decide]
  rw [show (pyTerms "alpha").card = 1 by decide]
  norm_num

theorem score_memC1good :
    score_memory providerC1 "alpha" [1] true (7/10) (3/10) memC1good
      = .ok (1703/2000) := by
  rw [score_memory_fresh_eq_map providerC1 "alpha" [1] true (7/10) (3/10)
    memC1good rfl]
  simp only [show memC1good.content = "alpha" from rfl]
  rw [show process_memory_embedding providerC1 "alpha" = [1] from rfl]
  rw [similarity_one, bm25_alpha]
  simp [Except.map, recency_factor, days_old, importance_boost, memC1good]
  norm_num

theorem score_memC1f :
    score_memory providerC1f "alpha" [1] false (7/10) (3/10) memC1f
      = .ok 1 := by
  rw [score_memory_fresh_eq_map providerC1f "alpha" [1] false (7/10) (3/10)
    memC1f rfl]
  simp only [show memC1f.content = "alpha" from rfl]
  rw [show process_memory_embedding providerC1f "alpha" = [1] from rfl]
  rw [similarity_one]
  simp [Except.map, recency_factor, days_old, importance_boost, memC1f]
  norm_num

/-- Counterexample to C1 as stated: a single candidate with a truthy
stored embedding — on which `json.loads` raises `TypeError` — aborts the
whole search (the pool of two returns `[]` although the embedding-less
good candidate alone is returned), and a candidate hit by a provider
failure is scored against the random fallback vector with vector
similarity 1, not 0 (with similarity 0 and `hybrid=false` its final score
would be 0 < 1/2 and it would be dropped; instead it is returned). -/
theorem partial_failure_counterexample :
    memory_similarity_search providerC1 "alpha" [memC1bad, memC1good] 5
      (1/2) true (7/10) (3/10) = [] ∧
    memory_similarity_search providerC1 "alpha" [memC1good] 5
      (1/2) true (7/10) (3/10) = [memC1good] ∧
    providerC1f.embed "alpha" = .error .valueError ∧
    calculate_similarity (generate_embedding providerC1f "alpha")
      (process_memory_embedding providerC1f "alpha") = .ok 1 ∧
    memory_similarity_search providerC1f "alpha" [memC1f] 5 (1/2) false
      (7/10) (3/10) = [memC1f] := by
  refine ⟨?_, ?_, rfl, ?_, ?_⟩
  · have h : score_memory providerC1 "alpha" (generate_embedding providerC1 "alpha")
        true (7/10) (3/10) memC1bad = .error .typeError :=
      score_memory_truthy_error providerC1 "alpha"
        (generate_embedding providerC1 "alpha") true (7/10) (3/10) memC1bad rfl
    exact partial_failure_amended.2 providerC1 "alpha" [memC1bad, memC1good]
      5 (1/2) true (7/10) (3/10) memC1bad .typeError (by simp) h
  · have hg : generate_embedding providerC1 "alpha" = [1] := rfl
    norm_num [memory_similarity_search, memory_similarity_search_body,
      score_and_filter, hg, score_memC1good, List.insertionSort,
      List.orderedInsert, bind, Except.bind, Except.map, Functor.map,
      pure, Except.pure]
  · rw [show process_memory_embedding providerC1f "alpha" = [1] from rfl]
    rw [show generate_embedding providerC1f "alpha" = [1] from rfl]
    exact similarity_one
  · have hg : generate_embedding providerC1f "alpha" = [1] := rfl
    norm_num [memory_similarity_search, memory_similarity_search_body,
      score_and_filter, hg, score_memC1f, List.insertionSort,
      List.orderedInsert, bind, Except.bind, Except.map, Functor.map,
      pure, Except.pure]

/-- Witness for the amended C1 at concrete inputs: the provider-failure
candidate is scored against the fallback, and a failing candidate in a
two-candidate pool empties the whole result. -/
theorem partial_failure_amended_witness :
    score_memory providerC1f "alpha" [1] false (7/10) (3/10) memC1f =
      (calculate_similarity [1] (providerC1f.fallback "alpha")).map (fun v =>
        (if false then v * (7/10) + calculate_bm25_score "alpha" memC1f.content * (3/10) else v)
          * recency_factor memC1f * (4/5 + importance_boost memC1f * (1/5))) ∧
    memory_similarity_search providerC1 "alpha" [memC1bad, memC1good] 5
      (1/2) true (7/10) (3/10) = [] := by
  constructor
  · exact partial_failure_amended.1 providerC1f "alpha" [1] false (7/10)
      (3/10) memC1f .valueError rfl rfl
  · have h : score_memory providerC1 "alpha" (generate_embedding providerC1 "alpha")
        true (7/10) (3/10) memC1bad = .error .typeError :=
      score_memory_truthy_error providerC1 "alpha"
        (generate_embedding providerC1 "alpha") true (7/10) (3/10) memC1bad rfl
    exact partial_failure_amended.2 providerC1 "alpha" [memC1bad, memC1good]
      5 (1/2) true (7/10) (3/10) memC1bad .typeError (by simp) h

/-! ## C5: empty-query behaviour -/

/-- C5 (amended): a query with no terms is not special-cased. Search does
not error (C9 covers the interface), the keyword score of every candidate
is 0, and so the keyword weight is irrelevant to every candidate's final
score; candidates can still be returned purely on vector similarity. -/
theorem empty_query_amended (p : Provider) (q d : String) (qe : List ℚ)
    (hybrid : Bool) (vw kw kw2 : ℚ) (m : Memory)
    (hq : pySplit (pyLower q) = []) :
    calculate_bm25_score q d = 0 ∧
    score_memory p q qe hybrid vw kw m = score_memory p q qe hybrid vw kw2 m := by
  have hterms : pyTerms q = ∅ := by simp [pyTerms, hq]
  have hbm : ∀ d2, calculate_bm25_score q d2 = 0 := fun d2 => by
    simp [calculate_bm25_score, hterms]
  exact ⟨hbm d, by simp [score_memory, hbm]⟩

def providerC5 : Provider := ⟨fun _ => .ok [1], fun _ => [1]⟩

def memC5 : Memory := ⟨"x", none, some 1, 0, none⟩

theorem score_memC5 :
    score_memory providerC5 "" [1] true (7/10) (3/10) memC5 = .ok (7/10) := by
  rw [score_memory_fresh_eq_map providerC5 "" [1] true (7/10) (3/10) memC5 rfl]
  rw [show process_memory_embedding providerC5 memC5.content = [1] from rfl]
  rw [similarity_one]
  rw [show calculate_bm25_score "" memC5.content = 0 from
    (empty_query_amended providerC5 "" memC5.content [1] true (7/10) (3/10)
      (3/10) memC5 (by decide)).1]
  simp [Except.map, recency_factor, days_old, importance_boost, memC5]
  norm_num

/-- Counterexample to C5 as stated: a query with no terms still ranks and
returns an embedding-less candidate (scored against a provider-generated
vector) whose vector-similarity-driven final score (0.7) reaches the
threshold (0.6); the result set is not empty. -/
theorem empty_query_counterexample :
    pySplit (pyLower "") = [] ∧
    memory_similarity_search providerC5 "" [memC5] 5 (6/10) true
      (7/10) (3/10) = [memC5] := by
  refine ⟨by decide, ?_⟩
  have hg : generate_embedding providerC5 "" = [1] := rfl
  norm_num [memory_similarity_search, memory_similarity_search_body,
    score_and_filter, hg, score_memC5, List.insertionSort,
    List.orderedInsert, bind, Except.bind, Except.map, Functor.map,
    pure, Except.pure]

/-- Witness for the amended C5 at concrete inputs. -/
theorem empty_query_amended_witness :
    pySplit (pyLower "") = [] ∧
    calculate_bm25_score "" "x" = 0 ∧
    score_memory providerC5 "" [1] true (7/10) (3/10) memC5 =
      score_memory providerC5 "" [1] true (7/10) (9/10) memC5 :=
  ⟨by decide,
    (empty_query_amended providerC5 "" "x" [1] true (7/10) (3/10) (9/10)
      memC5 (by decide)).1,
    (empty_query_amended providerC5 "" "x" [1] true (7/10) (3/10) (9/10)
      memC5 (by decide)).2⟩

/-! ## C2: search output contract -/

theorem score_and_filter_sound (p : Provider) (q : String) (qe : List ℚ)
    (threshold : ℚ) (hybrid : Bool) (vw kw : ℚ)
    (ms : List Memory) (sc : List (Memory × ℚ))
    (hsc : score_and_filter p q qe threshold hybrid vw kw ms = .ok sc) :
    (∀ x ∈ sc, score_memory p q qe hybrid vw kw x.1 = .ok x.2 ∧
      threshold ≤ x.2) ∧
    List.Sublist (sc.map Prod.fst) ms := by
  induction ms generalizing sc with
  | nil =>
    simp [score_and_filter] at hsc
    subst hsc
    exact ⟨by simp, by simp⟩
  | cons a l ih =>
    cases ha : score_memory p q qe hybrid vw kw a with
    | error e => simp [score_and_filter, ha, bind, Except.bind] at hsc
    | ok s =>
      cases hrest : score_and_filter p q qe threshold hybrid vw kw l with
      | error e => simp [score_and_filter, ha, hrest, bind, Except.bind] at hsc
      | ok rest =>
        obtain ⟨ihmem, ihsub⟩ := ih rest hrest
        by_cases hth : threshold ≤ s
        · have hsc2 : (a, s) :: rest = sc := by
            simpa [score_and_filter, ha, hrest, hth, bind, Except.bind,
              pure, Except.pure] using hsc
          subst hsc2
          constructor
          · intro x hx
            rcases List.mem_cons.mp hx with rfl | hxr
            · exact ⟨ha, hth⟩
            · exact ihmem x hxr
          · simpa using List.Sublist.cons₂ a ihsub
        · have hsc2 : rest = sc := by
            simpa [score_and_filter, ha, hrest, hth, bind, Except.bind,
              pure, Except.pure] using hsc
          subst hsc2
          exact ⟨ihmem, ihsub.cons a⟩

theorem insertionSort_filter_score (sc : List (Memory × ℚ)) (q0 : ℚ) :
    (sc.insertionSort byScoreDesc).filter (fun x => decide (x.2 = q0)) =
      sc.filter (fun x => decide (x.2 = q0)) := by
  have hall : ∀ x ∈ sc.filter (fun x => decide (x.2 = q0)), x.2 = q0 := by
    intro x hx
    simpa using (List.mem_filter.mp hx).2
  have hpair : (sc.filter (fun x => decide (x.2 = q0))).Pairwise byScoreDesc := by
    apply List.pairwise_of_forall_mem_list
    intro a ha b hb
    unfold byScoreDesc
    rw [hall a ha, hall b hb]
  have hsub : List.Sublist (sc.filter (fun x => decide (x.2 = q0))) sc :=
    List.filter_sublist sc
  have h1 : List.Sublist (sc.filter (fun x => decide (x.2 = q0)))
      (sc.insertionSort byScoreDesc) :=
    List.sublist_insertionSort hpair hsub
  have h3 : (sc.filter (fun x => decide (x.2 = q0))).filter
      (fun x => decide (x.2 = q0)) = sc.filter (fun x => decide (x.2 = q0)) :=
    List.filter_eq_self.mpr (fun a ha => (List.mem_filter.mp ha).2)
  have h2 : List.Sublist (sc.filter (fun x => decide (x.2 = q0)))
      ((sc.insertionSort byScoreDesc).filter (fun x => decide (x.2 = q0))) :=
    h3 ▸ (h1.filter (fun x => decide (x.2 = q0)))
  have hperm : List.Perm
      ((sc.insertionSort byScoreDesc).filter (fun x => decide (x.2 = q0)))
      (sc.filter (fun x => decide (x.2 = q0))) :=
    (List.perm_insertionSort byScoreDesc sc).filter _
  exact (h2.eq_of_length hperm.length_eq.symm).symm

/-- C2: whenever the scoring loop succeeds, the search output is obtained
by stable-sorting the threshold-filtered scored candidates descending by
final score and truncating to `limit`; hence it has length at most
`limit`, every returned record scores at least `threshold`, the sorted
list is descending, equal scores keep their input order (the filtered
list preserves the candidate pool's order, being a sublist of it). -/
theorem search_output_contract (p : Provider) (query : String)
    (memories : List Memory) (limit : ℕ) (threshold : ℚ)
    (hybrid : Bool) (vw kw : ℚ) (sc : List (Memory × ℚ))
    (hlim : 1 ≤ limit)
    (hsc : score_and_filter p query (generate_embedding p query) threshold
      hybrid vw kw memories = .ok sc) :
    memory_similarity_search p query memories limit threshold hybrid vw kw
      = ((sc.insertionSort byScoreDesc).take limit).map Prod.fst ∧
    (memory_similarity_search p query memories limit threshold hybrid
      vw kw).length ≤ limit ∧
    (∀ m ∈ memory_similarity_search p query memories limit threshold hybrid
        vw kw, ∃ s, score_memory p query (generate_embedding p query) hybrid
        vw kw m = .ok s ∧ threshold ≤ s) ∧
    (sc.insertionSort byScoreDesc).Pairwise byScoreDesc ∧
    (∀ q0 : ℚ, (sc.insertionSort byScoreDesc).filter
        (fun x => decide (x.2 = q0)) =
      sc.filter (fun x => decide (x.2 = q0))) ∧
    List.Sublist (sc.map Prod.fst) memories := by
  obtain ⟨hmem, hsub⟩ := score_and_filter_sound p query
    (generate_embedding p query) threshold hybrid vw kw memories sc hsc
  have hout : memory_similarity_search p query memories limit threshold
      hybrid vw kw = ((sc.insertionSort byScoreDesc).take limit).map Prod.fst := by
    simp [memory_similarity_search, memory_similarity_search_body, hsc,
      bind, Except.bind, pure, Except.pure]
  refine ⟨hout, ?_, ?_, ?_, fun q0 => insertionSort_filter_score sc q0, hsub⟩
  · rw [hout, List.length_map]
    exact List.length_take_le limit _
  · intro m hm
    rw [hout] at hm
    obtain ⟨x, hx, hxm⟩ := List.mem_map.mp hm
    have hx2 : x ∈ sc.insertionSort byScoreDesc := List.mem_of_mem_take hx
    have hx3 : x ∈ sc := (List.mem_insertionSort byScoreDesc).mp hx2
    obtain ⟨hsm, hth⟩ := hmem x hx3
    exact ⟨x.2, hxm ▸ hsm, hth⟩
  · exact List.sorted_insertionSort byScoreDesc sc

def providerC2 : Provider := ⟨fun _ => .ok [1], fun _ => [1]⟩

def memC2a : Memory := ⟨"alpha", none, some 1, 0, none⟩

def memC2b : Memory := ⟨"alpha", none, some (1/2), 0, none⟩

theorem score_memC2a :
    score_memory providerC2 "alpha" [1] true (7/10) (3/10) memC2a
      = .ok (1703/2000) := by
  rw [score_memory_fresh_eq_map providerC2 "alpha" [1] true (7/10) (3/10)
    memC2a rfl]
  simp only [show memC2a.content = "alpha" from rfl]
  rw [show process_memory_embedding providerC2 "alpha" = [1] from rfl]
  rw [similarity_one, bm25_alpha]
  simp [Except.map, recency_factor, days_old, importance_boost, memC2a]
  norm_num

theorem score_memC2b :
    score_memory providerC2 "alpha" [1] true (7/10) (3/10) memC2b
      = .ok (15327/20000) := by
  rw [score_memory_fresh_eq_map providerC2 "alpha" [1] true (7/10) (3/10)
    memC2b rfl]
  simp only [show memC2b.content = "alpha" from rfl]
  rw [show process_memory_embedding providerC2 "alpha" = [1] from rfl]
  rw [similarity_one, bm25_alpha]
  simp [Except.map, recency_factor, days_old, importance_boost, memC2b]
  norm_num

theorem score_and_filter_C2 :
    score_and_filter providerC2 "alpha" (generate_embedding providerC2 "alpha")
      (1/2) true (7/10) (3/10) [memC2b, memC2a]
      = .ok [(memC2b, 15327/20000), (memC2a, 1703/2000)] := by
  have hg : generate_embedding providerC2 "alpha" = [1] := rfl
  rw [hg]
  norm_num [score_and_filter, score_memC2a, score_memC2b, bind, Except.bind,
    pure, Except.pure]

/-- Witness for C2 at a concrete two-candidate pool: the lower-scoring
candidate comes first in the pool, and the search returns the candidates
sorted descending by final score. -/
theorem search_output_contract_witness :
    (1 ≤ 5 ∧
      memory_similarity_search providerC2 "alpha" [memC2b, memC2a] 5 (1/2)
        true (7/10) (3/10)
        = ((([(memC2b, 15327/20000), (memC2a, 1703/2000)] : List (Memory × ℚ)).insertionSort
            byScoreDesc).take 5).map Prod.fst ∧
      (memory_similarity_search providerC2 "alpha" [memC2b, memC2a] 5 (1/2)
        true (7/10) (3/10)).length ≤ 5) ∧
    memory_similarity_search providerC2 "alpha" [memC2b, memC2a] 5 (1/2)
      true (7/10) (3/10) = [memC2a, memC2b] := by
  have h := search_output_contract providerC2 "alpha" [memC2b, memC2a] 5
    (1/2) true (7/10) (3/10) [(memC2b, 15327/20000), (memC2a, 1703/2000)]
    (by norm_num) score_and_filter_C2
  refine ⟨⟨by norm_num, h.1, h.2.1⟩, ?_⟩
  rw [h.1]
  norm_num [List.insertionSort, List.orderedInsert, byScoreDesc]
